import Mathlib

/-!
Verification of the language-learning agent against its specification.

The development shallowly embeds the program's two source files:
* agent tools: word sampling (`get_n_random_words`,
  `get_n_random_words_by_difficulty_level`), translation (`translate_words`),
  and deck creation (`create_anki_stack`);
* the orchestration loop built by `build_graph` in the main module.

External collaborators are modelled as oracles: the completion backend is a
function from prompt to either a reply text or a raised exception, the
flashcard store is a function from post index to either a response or a
transport exception, the filesystem is a function from path to an optional
catalog, and the random sampler is an abstract draw-without-replacement
function constrained by hypotheses.  Python's `json.loads` is embedded as an
executable JSON parser over a JSON value type (integers only for numbers, no
unicode escapes — none of the verified properties depend on those corners);
the exact text of CPython decoder error messages is abstracted by fixed
strings.  Machine-level details (floats, real time) are not needed by any
property below.
-/

namespace LangLearn

/-- JSON values, the codomain of the embedded `json.loads`.  Python dicts are
modelled as association lists in insertion order. -/
inductive JVal where
  | jnull : JVal
  | jbool : Bool → JVal
  | jnum : Int → JVal
  | jstr : String → JVal
  | jarr : List JVal → JVal
  | jobj : List (String × JVal) → JVal

/-- The opening-brace character, written by code point to keep brace
characters out of literals. -/
def openBrace : Char := Char.ofNat 123

/-- The closing-brace character. -/
def closeBrace : Char := Char.ofNat 125

/-- JSON whitespace skipping, as in the Python decoder. -/
def skipWs : List Char → List Char
  | c :: cs => if c = ' ' ∨ c = '\n' ∨ c = '\t' ∨ c = '\r' then skipWs cs else c :: cs
  | [] => []

/-- The table of string escape characters and their decodings (unicode
escapes unsupported). -/
def escMap : List (Char × Char) :=
  [('"', '"'), ('\\', '\\'), ('/', '/'), ('n', '\n'), ('t', '\t'),
   ('r', '\r'), ('b', Char.ofNat 8), ('f', Char.ofNat 12)]

/-- Decoding of a string escape character via the table. -/
def escChar (c : Char) : Option Char :=
  (escMap.find? (fun p => p.1 == c)).map (fun p => p.2)

/-- Parses the body of a JSON string after the opening quote; returns the
content and the remaining input after the closing quote. -/
def parseStringBody : List Char → Option (List Char × List Char)
  | '"' :: cs => some ([], cs)
  | '\\' :: c :: cs =>
    match escChar c with
    | some e =>
      match parseStringBody cs with
      | some (s, r) => some (e :: s, r)
      | none => none
    | none => none
  | c :: cs =>
    match parseStringBody cs with
    | some (s, r) => some (c :: s, r)
    | none => none
  | [] => none

/-- Takes a maximal run of decimal digits. -/
def takeDigits : List Char → List Char × List Char
  | [] => ([], [])
  | c :: cs =>
    if c.isDigit then
      let p := takeDigits cs
      (c :: p.1, p.2)
    else ([], c :: cs)

/-- Numeric value of a digit run. -/
def digitsVal (ds : List Char) : Nat :=
  ds.foldl (fun a c => a * 10 + (c.toNat - 48)) 0

/-- Parses a nonempty run of digits into a natural number. -/
def parseNatNum (cs : List Char) : Option (Nat × List Char) :=
  let p := takeDigits cs
  if p.1.isEmpty then none else some (digitsVal p.1, p.2)

mutual

/-- Parses one JSON value (fuel-indexed recursion, structural on the fuel). -/
def parseVal : Nat → List Char → Option (JVal × List Char)
  | 0, _ => none
  | f + 1, cs =>
    match skipWs cs with
    | [] => none
    | c :: r =>
      if c = openBrace then
        match skipWs r with
        | [] => none
        | c2 :: r2 =>
          if c2 = closeBrace then some (JVal.jobj [], r2)
          else
            match parseMembers f (c2 :: r2) with
            | some (fs, r3) => some (JVal.jobj fs, r3)
            | none => none
      else if c = '[' then
        match skipWs r with
        | ']' :: r2 => some (JVal.jarr [], r2)
        | cs2 =>
          match parseItems f cs2 with
          | some (xs, r2) => some (JVal.jarr xs, r2)
          | none => none
      else if c = '"' then
        match parseStringBody r with
        | some (s, r2) => some (JVal.jstr (String.mk s), r2)
        | none => none
      else if c = 'n' then
        match r with
        | 'u' :: 'l' :: 'l' :: r2 => some (JVal.jnull, r2)
        | _ => none
      else if c = 't' then
        match r with
        | 'r' :: 'u' :: 'e' :: r2 => some (JVal.jbool true, r2)
        | _ => none
      else if c = 'f' then
        match r with
        | 'a' :: 'l' :: 's' :: 'e' :: r2 => some (JVal.jbool false, r2)
        | _ => none
      else if c = '-' then
        match parseNatNum r with
        | some (m, r2) => some (JVal.jnum (-(m : Int)), r2)
        | none => none
      else if c.isDigit then
        match parseNatNum (c :: r) with
        | some (m, r2) => some (JVal.jnum (m : Int), r2)
        | none => none
      else none

/-- Parses one or more `"key": value` members followed by the closing brace. -/
def parseMembers : Nat → List Char → Option (List (String × JVal) × List Char)
  | 0, _ => none
  | f + 1, cs =>
    match skipWs cs with
    | '"' :: r =>
      match parseStringBody r with
      | some (k, r2) =>
        match skipWs r2 with
        | ':' :: r3 =>
          match parseVal f r3 with
          | some (v, r4) =>
            match skipWs r4 with
            | c :: r5 =>
              if c = ',' then
                match parseMembers f r5 with
                | some (fs, r6) => some ((String.mk k, v) :: fs, r6)
                | none => none
              else if c = closeBrace then some ([(String.mk k, v)], r5)
              else none
            | [] => none
          | none => none
        | _ => none
      | none => none
    | _ => none

/-- Parses one or more array items followed by the closing bracket. -/
def parseItems : Nat → List Char → Option (List JVal × List Char)
  | 0, _ => none
  | f + 1, cs =>
    match parseVal f cs with
    | some (v, r) =>
      match skipWs r with
      | ',' :: r2 =>
        match parseItems f r2 with
        | some (xs, r3) => some (v :: xs, r3)
        | none => none
      | ']' :: r2 => some ([v], r2)
      | _ => none
    | none => none

end

/-- Embedding of `json.loads`: the whole input must be one JSON value up to
whitespace.  Error messages follow the CPython decoder's message prefixes. -/
def jloads (s : String) : Except String JVal :=
  match parseVal (s.length + 1) s.data with
  | some (v, rest) => if skipWs rest = [] then Except.ok v else Except.error "Extra data"
  | none => Except.error "Expecting value"

/-- Suffix of the input starting at the first opening brace, if any. -/
def dropToOpen : List Char → Option (List Char)
  | [] => none
  | c :: cs => if c = openBrace then some (c :: cs) else dropToOpen cs

/-- Suffix of the input starting at the first closing brace, if any. -/
def dropToClose : List Char → Option (List Char)
  | [] => none
  | c :: cs => if c = closeBrace then some (c :: cs) else dropToClose cs

/-- Embedding of the greedy DOTALL regex search for a braced substring used in
`translate_words`: the match runs from the first opening brace that has a
later closing brace to the last closing brace of the text. -/
def extractBraced (s : String) : Option String :=
  match dropToOpen s.data with
  | none => none
  | some l =>
    match dropToClose l.reverse with
    | none => none
    | some r => some (String.mk r.reverse)

/-! ## Translator: embedding of `translate_words` (agent tools, lines 86-105) -/

/-- Exceptions that can cross the try block of `translate_words`: an exception
raised by the completion backend (`model.invoke`), or one raised by
`json.loads`. -/
inductive PyExc where
  | backendErr (msg : String)
  | jsonErr (msg : String)

/-- Embedding of Python `str(e)` on the exceptions above. -/
def excStr : PyExc → String
  | .backendErr m => m
  | .jsonErr m => m

/-- The error dictionary returned by the except branch of `translate_words`. -/
def errorDict (m : String) : JVal := JVal.jobj [("error", JVal.jstr m)]

/-- The dictionary returned by `translate_words` when no braced substring is
found in the reply. -/
def invalidDict (raw : String) : JVal :=
  JVal.jobj [("error", JVal.jstr "Invalid JSON response"), ("raw", JVal.jstr raw)]

/-- Escape of one character inside a dumped JSON string. -/
def jdumpChar (c : Char) : List Char :=
  if c = '"' then ['\\', '"'] else if c = '\\' then ['\\', '\\'] else [c]

/-- Embedding of `json.dumps` on a string. -/
def jdumpString (s : String) : String :=
  "\"" ++ String.mk (s.data.map jdumpChar).flatten ++ "\""

/-- Embedding of `json.dumps` on a list of strings. -/
def jdumpStringList (ws : List String) : String :=
  "[" ++ String.intercalate ", " (ws.map jdumpString) ++ "]"

/-- The completion prompt built by `translate_words` (braces written by code
point). -/
def buildPrompt (random_words : List String) (source_language target_language : String) : String :=
  "Translate these " ++ toString random_words.length ++ " words from " ++
    source_language ++ " to " ++ target_language ++ ".\n" ++
    "Return ONLY valid JSON: \x7b \"translations\": [ \x7b \"source\": \"word\", \"target\": \"translation\" \x7d ] \x7d\n" ++
    "Words: " ++ jdumpStringList random_words

/-- The try block of `translate_words`: invoke the backend on the prompt,
search the reply for a braced substring, and parse it; exceptions from the
backend and from `json.loads` propagate in the error component.  The backend
oracle maps the prompt to either a reply text or a raised exception. -/
def translateTry (backend : String → Except String String)
    (random_words : List String) (source_language target_language : String) :
    Except PyExc JVal :=
  match backend (buildPrompt random_words source_language target_language) with
  | .error m => .error (PyExc.backendErr m)
  | .ok text =>
    match extractBraced text with
    | some s =>
      match jloads s with
      | .ok v => .ok v
      | .error m => .error (PyExc.jsonErr m)
    | none => .ok (invalidDict text)

/-- Embedding of `translate_words`: the try block with its except handler,
which converts any exception into the error dictionary. -/
def translate_words (random_words : List String)
    (source_language target_language : String)
    (backend : String → Except String String) : JVal :=
  match translateTry backend random_words source_language target_language with
  | .ok v => v
  | .error e => errorDict (excStr e)

/-- Python-dict lookup on a JSON object (last binding wins, as in a dict
built from a JSON object with duplicate keys). -/
def objGet (v : JVal) (key : String) : Option JVal :=
  match v with
  | .jobj fs => (fs.reverse.find? (fun p => p.1 == key)).map (fun p => p.2)
  | _ => none

/-- Whether a JSON value is an object (a Python dict). -/
def JVal.isObj : JVal → Bool
  | .jobj _ => true
  | _ => false

/-- Length of the `translations` list of a reply dictionary, when present. -/
def translationsCount (v : JVal) : Option Nat :=
  match objGet v "translations" with
  | some (JVal.jarr xs) => some xs.length
  | _ => none

/-- Whether a returned dictionary is an error payload (carries an `error`
key), the shape the except branch and the invalid-JSON branch produce. -/
def isErrorPayload (v : JVal) : Bool := (objGet v "error").isSome

/-- Modelled from the spec: the fully-untranslated identity-fallback batch
(`target` falls back to the original word) that the specification says
`translate` returns when both parse attempts fail.  This reconciliation step
is absent from the source; the definition exists only to be compared with the
embedded `translate_words`. -/
def specIdentityBatch (words : List String) : JVal :=
  JVal.jobj [("translations",
    JVal.jarr (words.map fun w =>
      JVal.jobj [("source", JVal.jstr w), ("target", JVal.jstr w)]))]

/-! ## WordSource: embedding of the sampling tools (agent tools, lines 42-82) -/

/-- One entry of the per-language word catalog; only the fields the tools
read are modelled (`word`, and `word_difficulty` which may be absent, as
`v.get` with a default witnesses in the source). -/
structure WordEntry where
  word : String
  word_difficulty : Option String
deriving DecidableEq

/-- A loaded word catalog: the JSON object of the word-list file, an
insertion-ordered mapping from opaque key to entry. -/
abbrev Catalog := List (String × WordEntry)

/-- The path the tools build with `os.path.join`. -/
def wordListPath (language : String) : String :=
  "data/" ++ language ++ "/word-list-cleaned.json"

/-- The error reply returned when the word-list file does not exist. -/
def fileNotFoundMsg (language : String) : String :=
  "Error: File not found at " ++ wordListPath language

/-- The error reply returned when no catalog entry matches the requested
difficulty. -/
def noWordsMsg (difficulty_level language : String) : String :=
  "Error: No words found for " ++ difficulty_level ++ " in " ++ language

/-- Embedding of the dict indexing `word_list[k]["word"]`. -/
def lookupWord (word_list : Catalog) (k : String) : String :=
  ((word_list.find? (fun p => p.1 == k)).map (fun p => p.2.word)).getD ""

/-- Embedding of `get_n_random_words`.  The filesystem oracle `fs` maps a
path to the parsed catalog when the file exists; `sample` stands for
`random.sample`, an abstract draw without replacement (its contract is a
hypothesis of the theorems).  The singleton error-string returns of the
source are embedded as the error component. -/
def get_n_random_words (sample : List String → Nat → List String)
    (fs : String → Option Catalog) (language : String) (n : Nat) :
    Except String (List String) :=
  match fs (wordListPath language) with
  | none => .error (fileNotFoundMsg language)
  | some word_list =>
    let keys := word_list.map Prod.fst
    let n2 := if keys.length < n then keys.length else n
    .ok ((sample keys n2).map (lookupWord word_list))

/-- Embedding of Python `str.lower()`, character by character (the catalogs
and difficulty levels in scope are ASCII). -/
def strLower (s : String) : String := String.mk (s.data.map Char.toLower)

/-- The filter predicate of the difficulty tool:
`v.get("word_difficulty", "").lower() == difficulty_level.lower()`. -/
def matchesDifficulty (difficulty_level : String) (e : WordEntry) : Bool :=
  strLower (e.word_difficulty.getD "") == strLower difficulty_level

/-- Embedding of `get_n_random_words_by_difficulty_level`. -/
def get_n_random_words_by_difficulty_level
    (sample : List String → Nat → List String)
    (fs : String → Option Catalog)
    (language difficulty_level : String) (n : Nat) :
    Except String (List String) :=
  match fs (wordListPath language) with
  | none => .error (fileNotFoundMsg language)
  | some word_list =>
    let filtered := word_list.filter (fun p => matchesDifficulty difficulty_level p.2)
    if filtered.isEmpty then .error (noWordsMsg difficulty_level language)
    else
      let keys := filtered.map Prod.fst
      let n2 := if keys.length < n then keys.length else n
      .ok ((sample keys n2).map (lookupWord filtered))

/-! ## DeckBuilder: embedding of `create_anki_stack` (agent tools, lines 108-154) -/

/-- A card argument: a Python dict that may carry `source`/`target` and/or
the historical `front`/`back` keys. -/
structure Card where
  source : Option String
  target : Option String
  front : Option String
  back : Option String
deriving DecidableEq

/-- The note payload built for one card. -/
structure AnkiNote where
  deckName : String
  modelName : String
  frontField : String
  backField : String
deriving DecidableEq

/-- A request posted to the flashcard store. -/
inductive AnkiReq where
  | createDeck (deck : String)
  | addNote (note : AnkiNote)
deriving DecidableEq

/-- A response of the flashcard store (only the `error` field is read). -/
structure AnkiResp where
  error : Option String
deriving DecidableEq

/-- The note built from a card: front from `source` else `front` else empty,
back from `target` else `back` else empty. -/
def mkNote (deck_name : String) (card : Card) : AnkiNote :=
  { deckName := deck_name
    modelName := "Basic"
    frontField := (card.source.getD (card.front.getD ""))
    backField := (card.target.getD (card.back.getD "")) }

/-- The string returned when the create-deck post raises. -/
def connectErrMsg (e : String) : String :=
  "Error connecting to Anki: " ++ e ++ ". Is Anki running?"

/-- The success summary string returned after the card loop. -/
def successMsg (deck_name : String) (success_count error_count : Nat) : String :=
  "Success! Created deck '" ++ deck_name ++ "' and added " ++
    toString success_count ++ " cards. Errors: " ++ toString error_count

/-- The flashcard store as a behaviour oracle: the response of the store to
the i-th post of the call (post 0 is the create-deck request), either a
response object or a raised transport exception. -/
abbrev Store := Nat → Except String AnkiResp

/-- The card-insertion loop of `create_anki_stack`: posts one note per card,
counts successes and accumulates per-card errors.  A transport exception
inside the loop is uncaught in the source, so it propagates in the error
component; the second component records the posts attempted. -/
def insertLoop (store : Store) (deck_name : String) :
    List Card → Nat → Nat → List String → Except String String × List AnkiReq
  | [], _, success_count, errors =>
    (.ok (successMsg deck_name success_count errors.length), [])
  | card :: rest, i, success_count, errors =>
    let req := AnkiReq.addNote (mkNote deck_name card)
    match store i with
    | .error e => (.error e, [req])
    | .ok resp =>
      match resp.error with
      | some m =>
        let out := insertLoop store deck_name rest (i + 1) success_count (errors ++ [m])
        (out.1, req :: out.2)
      | none =>
        let out := insertLoop store deck_name rest (i + 1) (success_count + 1) errors
        (out.1, req :: out.2)

/-- Embedding of `create_anki_stack`: post the create-deck request (its
response is ignored; a transport exception is caught and returned as the
connection-error string), then run the card loop.  The second component is
the trace of posts issued. -/
def create_anki_stack (store : Store) (deck_name : String) (cards : List Card) :
    Except String String × List AnkiReq :=
  match store 0 with
  | .error e => (.ok (connectErrMsg e), [AnkiReq.createDeck deck_name])
  | .ok _ =>
    let out := insertLoop store deck_name cards 1 0 []
    (out.1, AnkiReq.createDeck deck_name :: out.2)

/-- Specification-side counter: how many of the remaining posts (starting at
post index i) get a response without an error field. -/
def countOk (store : Store) : Nat → List Card → Nat
  | _, [] => 0
  | i, _ :: rest =>
    (match store i with
     | .ok resp => if resp.error.isNone then 1 else 0
     | .error _ => 0) + countOk store (i + 1) rest

/-- Specification-side collector: the per-card error messages of the
remaining posts starting at post index i. -/
def collectErrs (store : Store) : Nat → List Card → List String
  | _, [] => []
  | i, _ :: rest =>
    (match store i with
     | .ok resp => resp.error.toList
     | .error _ => []) ++ collectErrs store (i + 1) rest

/-! ## Orchestrator: graph wiring of `build_graph` (main module, lines 157-174)
with the loop executor. -/

/-- A tool call emitted by the model. -/
structure ToolCall where
  name : String
  id : String
deriving DecidableEq

/-- Conversation messages: system / human / model (with tool calls) / tool
result. -/
inductive ChatMsg where
  | sys (content : String)
  | human (content : String)
  | ai (content : String) (tool_calls : List ToolCall)
  | toolMsg (callId : String) (content : String)
deriving DecidableEq

/-- Whether a model message carries tool calls; `tools_condition` routes to
the tools node exactly when the latest model response does. -/
def hasToolCalls : ChatMsg → Bool
  | .ai _ (_ :: _) => true
  | _ => false

/-- Orchestrator-level failures. -/
inductive OrchErr where
  | turnBudgetExceeded
deriving DecidableEq

/-- Modelled from the spec: the loop executor of the compiled graph.  The
graph wiring is that of `build_graph` in the source (assistant node, then the
tools-condition conditional edge, tools node back to assistant); the
recursion-limited executor that bounds AwaitingModel-to-DispatchingTools
cycles by a configurable ceiling and fails with the turn-budget error is
provided by the graph runtime, which is not part of the repository sources,
so it is modelled from the specification's words.  `model` is the assistant's
model invocation on the conversation so far; `execTools` dispatches the tool
calls of a model message and returns the tool-result messages.  The second
component counts the assistant cycles used. -/
def runTurn (model : List ChatMsg → ChatMsg) (execTools : ChatMsg → List ChatMsg) :
    Nat → List ChatMsg → Except OrchErr (List ChatMsg) × Nat
  | 0, _ => (.error OrchErr.turnBudgetExceeded, 0)
  | budget + 1, msgs =>
    let reply := model msgs
    let msgs2 := msgs ++ [reply]
    if hasToolCalls reply then
      let out := runTurn model execTools budget (msgs2 ++ execTools reply)
      (out.1, out.2 + 1)
    else (.ok msgs2, 1)

/-! ## Concrete instances used by witnesses and counterexamples -/

/-- Whether a store interaction returned a response (no raised transport
exception). -/
def respOk : Except String AnkiResp → Bool
  | .ok _ => true
  | .error _ => false

/-- A parseable model reply carrying a single pair for a two-word request. -/
def shortReply : String :=
  "\x7b\"translations\": [\x7b\"source\": \"adios\", \"target\": \"goodbye\"\x7d]\x7d"

/-- A model reply with no structured-object substring at all. -/
def proseReply : String := "I cannot translate these words."

/-- A model reply whose braced substring is not valid JSON. -/
def badJsonReply : String := "\x7b oops \x7d"

/-- Another brace-free model reply. -/
def apologyReply : String := "Sorry, try again later."

/-- A deterministic draw without replacement: the leading elements.  Stands
in for one possible behaviour of `random.sample`. -/
def takeSample (l : List String) (k : Nat) : List String := l.take k

/-- A three-entry Spanish catalog with pairwise distinct words. -/
def wCat : Catalog :=
  [("k1", ⟨"perro", some "beginner"⟩),
   ("k2", ⟨"gato", some "advanced"⟩),
   ("k3", ⟨"sol", some "beginner"⟩)]

/-- A filesystem on which only the Spanish word list exists, holding `wCat`. -/
def wFs : String → Option Catalog :=
  fun p => if p = wordListPath "spanish" then some wCat else none

/-- A legal catalog (distinct keys) whose two entries carry the same word. -/
def dupCat : Catalog :=
  [("k1", ⟨"amigo", some "beginner"⟩), ("k2", ⟨"amigo", some "beginner"⟩)]

/-- A filesystem holding `dupCat` as the Spanish word list. -/
def dupFs : String → Option Catalog :=
  fun p => if p = wordListPath "spanish" then some dupCat else none

/-- A two-entry German catalog with distinct difficulty levels. -/
def gCat : Catalog :=
  [("k1", ⟨"hund", some "beginner"⟩), ("k2", ⟨"zeit", some "advanced"⟩)]

/-- A filesystem holding `gCat` as the German word list. -/
def gFs : String → Option Catalog :=
  fun p => if p = wordListPath "german" then some gCat else none

/-- A filesystem with no word-list resource at all. -/
def noFs : String → Option Catalog := fun _ => none

/-- Three cards for the deck-creation scenarios. -/
def exCards : List Card :=
  [⟨some "hola", some "hello", none, none⟩,
   ⟨some "adios", some "goodbye", none, none⟩,
   ⟨some "gato", some "cat", none, none⟩]

/-- A reachable store whose second card insertion (post index 2) reports a
per-card error and whose other posts succeed. -/
def exStore : Store :=
  fun i => if i = 2 then .ok ⟨some "cannot create note because it is a duplicate"⟩ else .ok ⟨none⟩

/-- An unreachable store: every post raises a transport exception. -/
def downStore : Store := fun _ => .error "connection refused"

/-- A backend replying with `shortReply` and never raising. -/
def shortBackend : String → Except String String := fun _ => .ok shortReply

/-- A backend replying with `proseReply` and never raising. -/
def proseBackend : String → Except String String := fun _ => .ok proseReply

/-- A backend replying with `badJsonReply` and never raising. -/
def badJsonBackend : String → Except String String := fun _ => .ok badJsonReply

/-- A backend replying with `apologyReply` and never raising. -/
def apologyBackend : String → Except String String := fun _ => .ok apologyReply

/-- A backend raising a timeout exception on every invocation. -/
def timeoutBackend : String → Except String String := fun _ => .error "Request timed out"

/-- A model that emits a tool call on every response. -/
def loopModel : List ChatMsg → ChatMsg :=
  fun _ => ChatMsg.ai "" [⟨"get_n_random_words", "call-1"⟩]

/-- A tool dispatcher producing one result message. -/
def loopTools : ChatMsg → List ChatMsg :=
  fun _ => [ChatMsg.toolMsg "call-1" "result"]

/-- An initial conversation for the orchestrator scenarios. -/
def initMsgs : List ChatMsg := [ChatMsg.human "Get 10 easy words in Spanish"]

/-! ## Lemmas about brace extraction and the parser -/

lemma dropToOpen_shape : ∀ cs l, dropToOpen cs = some l → ∃ t, l = openBrace :: t := by
  intro cs
  induction cs with
  | nil => intro l h; simp [dropToOpen] at h
  | cons c cs ih =>
    intro l h
    rw [dropToOpen] at h
    split at h
    · rename_i hc
      obtain rfl : c :: cs = l := Option.some.inj h
      exact ⟨cs, by rw [hc]⟩
    · exact ih l h

lemma dropToClose_shape : ∀ cs l, dropToClose cs = some l → ∃ t, l = closeBrace :: t := by
  intro cs
  induction cs with
  | nil => intro l h; simp [dropToClose] at h
  | cons c cs ih =>
    intro l h
    rw [dropToClose] at h
    split at h
    · rename_i hc
      obtain rfl : c :: cs = l := Option.some.inj h
      exact ⟨cs, by rw [hc]⟩
    · exact ih l h

lemma dropToClose_isSuffix : ∀ cs l, dropToClose cs = some l → l <:+ cs := by
  intro cs
  induction cs with
  | nil => intro l h; simp [dropToClose] at h
  | cons c cs ih =>
    intro l h
    rw [dropToClose] at h
    split at h
    · obtain rfl : c :: cs = l := Option.some.inj h
      exact List.suffix_refl _
    · exact (ih l h).trans (List.suffix_cons c cs)

lemma extractBraced_head : ∀ s m, extractBraced s = some m → ∃ t, m.data = openBrace :: t := by
  intro s m h
  rw [extractBraced] at h
  split at h
  · exact absurd h (by simp)
  · rename_i l hl
    split at h
    · exact absurd h (by simp)
    · rename_i r hr
      obtain rfl : String.mk r.reverse = m := Option.some.inj h
      obtain ⟨t0, rfl⟩ := dropToOpen_shape _ _ hl
      obtain ⟨t1, rfl⟩ := dropToClose_shape _ _ hr
      have hsuf : (closeBrace :: t1) <:+ (openBrace :: t0).reverse := dropToClose_isSuffix _ _ hr
      have hpre : (closeBrace :: t1).reverse <+: (openBrace :: t0) := by
        have h2 := List.reverse_prefix.mpr hsuf
        rwa [List.reverse_reverse] at h2
      obtain ⟨u, hu⟩ := hpre
      rcases he : (closeBrace :: t1).reverse with _ | ⟨x, xs⟩
      · exact absurd he (by simp)
      · rw [he] at hu
        rw [List.cons_append] at hu
        have hx : x = openBrace := (List.cons.inj hu).1
        refine ⟨xs, ?_⟩
        simp [he, hx]

lemma parseVal_succ_openBrace (f : Nat) (t : List Char) :
    parseVal (f + 1) (openBrace :: t) =
      match skipWs t with
      | [] => none
      | c2 :: r2 =>
        if c2 = closeBrace then some (JVal.jobj [], r2)
        else
          match parseMembers f (c2 :: r2) with
          | some (fs, r3) => some (JVal.jobj fs, r3)
          | none => none := rfl

lemma parseVal_braced_obj :
    ∀ f t v r, parseVal f (openBrace :: t) = some (v, r) → ∃ fs, v = JVal.jobj fs := by
  intro f t v r h
  match f with
  | 0 => exact absurd h (by rw [parseVal]; simp)
  | f + 1 =>
    rw [parseVal_succ_openBrace] at h
    split at h
    · exact absurd h (by simp)
    · split at h
      · exact ⟨[], ((Prod.mk.inj (Option.some.inj h)).1).symm⟩
      · split at h
        · rename_i fs r3 _
          exact ⟨fs, ((Prod.mk.inj (Option.some.inj h)).1).symm⟩
        · exact absurd h (by simp)

lemma jloads_braced_obj :
    ∀ s t v, s.data = openBrace :: t → jloads s = .ok v → ∃ fs, v = JVal.jobj fs := by
  intro s t v hs h
  rw [jloads] at h
  split at h
  · rename_i v0 rest hp
    split at h
    · obtain rfl : v0 = v := Except.ok.inj h
      rw [hs] at hp
      exact parseVal_braced_obj _ _ _ _ hp
    · exact absurd h (by simp)
  · exact absurd h (by simp)

/-! ## Claims about the Translator -/

/-- C10.  `translate_words` is total at its public interface: for every
backend reply and every backend exception it returns a dictionary value, and
every exception crossing the try block is caught and converted to the
`error` dictionary rather than propagated. -/
theorem translate_words_total :
    ∀ (random_words : List String) (source_language target_language : String)
      (backend : String → Except String String),
      (translate_words random_words source_language target_language backend).isObj = true ∧
      (∀ m, backend (buildPrompt random_words source_language target_language) = .error m →
        translate_words random_words source_language target_language backend = errorDict m) := by
  intro ws sl tl b
  constructor
  · simp only [translate_words, translateTry]
    cases hb : b (buildPrompt ws sl tl) with
    | error m => simp [JVal.isObj, errorDict]
    | ok text =>
      cases he : extractBraced text with
      | none => simp [he, JVal.isObj, invalidDict]
      | some s =>
        cases hj : jloads s with
        | error m => simp [he, hj, JVal.isObj, errorDict]
        | ok v =>
          obtain ⟨t, ht⟩ := extractBraced_head _ _ he
          obtain ⟨fs, rfl⟩ := jloads_braced_obj _ _ _ ht hj
          simp [he, hj, JVal.isObj]
  · intro m hm
    simp only [translate_words, translateTry, hm]
    rfl

/-- Witness for C10 at a raising backend and at a replying backend. -/
theorem translate_words_total_witness :
    translate_words ["hola"] "Spanish" "English" timeoutBackend = errorDict "Request timed out" ∧
    (translate_words ["hola"] "Spanish" "English" shortBackend).isObj = true :=
  ⟨(translate_words_total ["hola"] "Spanish" "English" timeoutBackend).2 "Request timed out" rfl,
   (translate_words_total ["hola"] "Spanish" "English" shortBackend).1⟩

/-- C1.  Evaluation of `translate_words` at the failing input: two input
words, a parseable model reply carrying a single pair whose source is the
second word.  The code returns the parsed reply verbatim — one pair, not one
pair per input word in input order as documented. -/
theorem translate_reply_shape_observed :
    translate_words ["hola", "adios"] "Spanish" "English" shortBackend =
      JVal.jobj [("translations",
        JVal.jarr [JVal.jobj [("source", JVal.jstr "adios"), ("target", JVal.jstr "goodbye")]])] ∧
    translationsCount (translate_words ["hola", "adios"] "Spanish" "English" shortBackend) = some 1 ∧
    translationsCount (translate_words ["hola", "adios"] "Spanish" "English" shortBackend) ≠
      some (["hola", "adios"] : List String).length := by
  refine ⟨rfl, rfl, ?_⟩
  intro h
  rw [show translationsCount (translate_words ["hola", "adios"] "Spanish" "English" shortBackend)
        = some 1 from rfl] at h
  simp at h

/-- C2 counterexample.  When the reply has no structured-object substring,
`translate_words` returns the invalid-JSON error dictionary, which carries no
translations at all — not the identity-fallback batch the claim describes. -/
theorem translate_no_identity_fallback_cex :
    translate_words ["hola"] "Spanish" "English" proseBackend = invalidDict proseReply ∧
    objGet (translate_words ["hola"] "Spanish" "English" proseBackend) "translations" = none ∧
    translate_words ["hola"] "Spanish" "English" proseBackend ≠ specIdentityBatch ["hola"] := by
  refine ⟨rfl, rfl, ?_⟩
  intro h
  exact Bool.noConfusion
    (show false = true from congrArg (fun v => (objGet v "translations").isSome) h)

/-- C2 as amended.  When both parse attempts fail, `translate_words` does not
raise: it returns an error dictionary — the invalid-JSON dictionary when no
braced substring exists, the `error` dictionary with the decoder message when
parsing the substring raises — rather than an identity-fallback batch. -/
theorem translate_parse_failure_returns_error_dict :
    ∀ (random_words : List String) (source_language target_language text : String)
      (backend : String → Except String String),
      backend (buildPrompt random_words source_language target_language) = .ok text →
      (extractBraced text = none →
        translate_words random_words source_language target_language backend = invalidDict text) ∧
      (∀ s m, extractBraced text = some s → jloads s = .error m →
        translate_words random_words source_language target_language backend = errorDict m) := by
  intro ws sl tl text b hb
  constructor
  · intro he
    simp only [translate_words, translateTry, hb, he]
  · intro s m he hj
    simp only [translate_words, translateTry, hb, he, hj]
    rfl

/-- Witness for the amended C2 on both failure paths. -/
theorem translate_parse_failure_returns_error_dict_witness :
    translate_words ["hola"] "Spanish" "English" proseBackend = invalidDict proseReply ∧
    translate_words ["dos"] "Spanish" "English" badJsonBackend = errorDict "Expecting value" :=
  ⟨(translate_parse_failure_returns_error_dict
      ["hola"] "Spanish" "English" proseReply proseBackend rfl).1 rfl,
   (translate_parse_failure_returns_error_dict
      ["dos"] "Spanish" "English" badJsonReply badJsonBackend rfl).2 badJsonReply "Expecting value" rfl rfl⟩

/-- C8 counterexample.  A malformed reply does surface as an error payload:
the returned dictionary carries an `error` key of the same shape as the one
produced for a raised network exception, contradicting the claim that
malformed replies never propagate as errors while network failures do. -/
theorem malformed_reply_error_payload_cex :
    translate_words ["uno"] "Spanish" "English" apologyBackend = invalidDict apologyReply ∧
    isErrorPayload (translate_words ["uno"] "Spanish" "English" apologyBackend) = true ∧
    isErrorPayload (translate_words ["uno"] "Spanish" "English" timeoutBackend) = true ∧
    translate_words ["uno"] "Spanish" "English" timeoutBackend = errorDict "Request timed out" :=
  ⟨rfl, rfl, rfl, rfl⟩

/-- C8 as amended.  Network/timeout exceptions from the backend are caught
and returned as the `error` dictionary (never re-raised); malformed replies
likewise never raise, but they too surface as an error dictionary rather
than degrading to a normal result. -/
theorem exceptions_surface_as_error_dict :
    ∀ (random_words : List String) (source_language target_language : String)
      (backend : String → Except String String),
      (∀ m, backend (buildPrompt random_words source_language target_language) = .error m →
        translate_words random_words source_language target_language backend = errorDict m) ∧
      (∀ text, backend (buildPrompt random_words source_language target_language) = .ok text →
        extractBraced text = none →
        isErrorPayload (translate_words random_words source_language target_language backend) = true) := by
  intro ws sl tl b
  constructor
  · intro m hm
    simp only [translate_words, translateTry, hm]
    rfl
  · intro text hb he
    simp only [translate_words, translateTry, hb, he]
    rfl

/-- Witness for the amended C8 on both paths. -/
theorem exceptions_surface_as_error_dict_witness :
    translate_words ["dos", "tres"] "Spanish" "English" timeoutBackend = errorDict "Request timed out" ∧
    isErrorPayload (translate_words ["cuatro"] "Spanish" "English" proseBackend) = true :=
  ⟨(exceptions_surface_as_error_dict ["dos", "tres"] "Spanish" "English" timeoutBackend).1
      "Request timed out" rfl,
   (exceptions_surface_as_error_dict ["cuatro"] "Spanish" "English" proseBackend).2
      proseReply rfl rfl⟩

/-! ## Claims about the WordSource -/

/-- C4 as amended.  With an existing catalog, `get_n_random_words` returns
exactly `min n (catalog size)` words (clamping instead of erroring when `n`
exceeds the size), drawn from distinct catalog entries — the sampled keys are
without repetition — each returned word being the word of some catalog entry.
The words themselves need not be pairwise distinct when separate entries
share a word.  The sampler is any draw without replacement, the contract of
`random.sample`. -/
theorem get_n_random_words_clamped_distinct_draw :
    ∀ (sample : List String → Nat → List String) (fs : String → Option Catalog)
      (language : String) (n : Nat) (word_list : Catalog),
      (∀ (l : List String) (k : Nat), k ≤ l.length → (sample l k).length = k) →
      (∀ (l : List String) (k : Nat) (x : String), x ∈ sample l k → x ∈ l) →
      (∀ (l : List String) (k : Nat), l.Nodup → (sample l k).Nodup) →
      fs (wordListPath language) = some word_list →
      (word_list.map Prod.fst).Nodup →
      get_n_random_words sample fs language n =
        .ok ((sample (word_list.map Prod.fst) (min n word_list.length)).map (lookupWord word_list)) ∧
      (sample (word_list.map Prod.fst) (min n word_list.length)).length = min n word_list.length ∧
      (sample (word_list.map Prod.fst) (min n word_list.length)).Nodup ∧
      (∀ w ∈ (sample (word_list.map Prod.fst) (min n word_list.length)).map (lookupWord word_list),
        ∃ p, p ∈ word_list ∧ p.2.word = w) := by
  intro sample fs language n word_list hlen hmem hnd hfs hk
  have hn2 : (if (word_list.map Prod.fst).length < n then (word_list.map Prod.fst).length else n)
      = min n word_list.length := by
    rw [List.length_map]
    rcases Nat.lt_or_ge word_list.length n with h | h
    · rw [if_pos h, Nat.min_eq_right h.le]
    · rw [if_neg (Nat.not_lt.mpr h), Nat.min_eq_left h]
  refine ⟨?_, ?_, ?_, ?_⟩
  · simp only [get_n_random_words, hfs]
    rw [hn2]
  · exact hlen _ _ (by rw [List.length_map]; exact Nat.min_le_right n _)
  · exact hnd _ _ hk
  · intro w hw
    rw [List.mem_map] at hw
    obtain ⟨k, hks, rfl⟩ := hw
    have hkk := hmem _ _ _ hks
    rw [List.mem_map] at hkk
    obtain ⟨p, hp, hpk⟩ := hkk
    have hfind : (word_list.find? (fun q => q.1 == k)).isSome := by
      rw [List.find?_isSome]
      exact ⟨p, hp, by simp [hpk]⟩
    obtain ⟨q, hq⟩ := Option.isSome_iff_exists.mp hfind
    refine ⟨q, List.mem_of_find?_eq_some hq, ?_⟩
    rw [lookupWord, hq]
    rfl

/-- Witness for the amended C4 on a three-entry catalog with n = 2. -/
theorem get_n_random_words_clamped_distinct_draw_witness :
    get_n_random_words takeSample wFs "spanish" 2 = .ok ["perro", "gato"] ∧
    (["perro", "gato"] : List String).Nodup := by
  have h := get_n_random_words_clamped_distinct_draw takeSample wFs "spanish" 2 wCat
    (fun l k hk => by rw [takeSample, List.length_take]; omega)
    (fun l k x hx => List.take_subset _ _ hx)
    (fun l k hnd => (List.take_sublist _ _).nodup hnd)
    rfl (by decide)
  exact ⟨h.1.trans (by rfl), by decide⟩

/-- C4 counterexample.  On a legal catalog (distinct keys) whose two entries
carry the same word, a two-element draw returns the word twice: the result is
not a list of distinct words as the claim states. -/
theorem get_n_random_words_duplicate_words_cex :
    get_n_random_words takeSample dupFs "spanish" 2 = .ok ["amigo", "amigo"] ∧
    ¬ (["amigo", "amigo"] : List String).Nodup ∧
    (dupCat.map Prod.fst).Nodup := ⟨rfl, by decide, by decide⟩

/-- C7.  `get_n_random_words_by_difficulty_level` returns the no-matching
error reply exactly when the case-insensitive difficulty filter of the
catalog is empty, and every word it returns is the word of a catalog entry
whose difficulty matches the requested level case-insensitively. -/
theorem difficulty_filter_exact :
    ∀ (sample : List String → Nat → List String) (fs : String → Option Catalog)
      (language difficulty_level : String) (n : Nat) (word_list : Catalog),
      (∀ (l : List String) (k : Nat) (x : String), x ∈ sample l k → x ∈ l) →
      fs (wordListPath language) = some word_list →
      (word_list.filter (fun p => matchesDifficulty difficulty_level p.2) = [] →
        get_n_random_words_by_difficulty_level sample fs language difficulty_level n =
          .error (noWordsMsg difficulty_level language)) ∧
      (word_list.filter (fun p => matchesDifficulty difficulty_level p.2) ≠ [] →
        ∃ ws, get_n_random_words_by_difficulty_level sample fs language difficulty_level n = .ok ws) ∧
      (∀ ws, get_n_random_words_by_difficulty_level sample fs language difficulty_level n = .ok ws →
        ∀ w ∈ ws, ∃ p, p ∈ word_list ∧ matchesDifficulty difficulty_level p.2 = true ∧ p.2.word = w) := by
  intro sample fs language dl n word_list hmem hfs
  refine ⟨?_, ?_, ?_⟩
  · intro hemp
    simp only [get_n_random_words_by_difficulty_level, hfs, hemp]
    rfl
  · intro hne
    simp only [get_n_random_words_by_difficulty_level, hfs]
    rw [if_neg (fun hcontra => hne (List.isEmpty_iff.mp hcontra))]
    exact ⟨_, rfl⟩
  · intro ws hok w hw
    simp only [get_n_random_words_by_difficulty_level, hfs] at hok
    split at hok
    · exact absurd hok (by simp)
    · obtain rfl : _ = ws := Except.ok.inj hok
      rw [List.mem_map] at hw
      obtain ⟨k, hks, rfl⟩ := hw
      have hkk := hmem _ _ _ hks
      rw [List.mem_map] at hkk
      obtain ⟨p, hp, hpk⟩ := hkk
      have hfind : ((word_list.filter (fun q => matchesDifficulty dl q.2)).find?
          (fun q => q.1 == k)).isSome := by
        rw [List.find?_isSome]
        exact ⟨p, hp, by simp [hpk]⟩
      obtain ⟨q, hq⟩ := Option.isSome_iff_exists.mp hfind
      have hqmem := List.mem_of_find?_eq_some hq
      rw [List.mem_filter] at hqmem
      refine ⟨q, hqmem.1, hqmem.2, ?_⟩
      rw [lookupWord, hq]
      rfl

/-- Witness for C7: the empty-filter error on an unknown level, and a
case-insensitive match returning only beginner words. -/
theorem difficulty_filter_exact_witness :
    get_n_random_words_by_difficulty_level takeSample gFs "german" "expert" 2 =
      .error (noWordsMsg "expert" "german") ∧
    get_n_random_words_by_difficulty_level takeSample gFs "german" "BEGINNER" 1 = .ok ["hund"] :=
  ⟨(difficulty_filter_exact takeSample gFs "german" "expert" 2 gCat
      (fun l k x hx => List.take_subset _ _ hx) rfl).1 (by decide),
   by rfl⟩

/-- C9.  With no catalog resource for the language, both sampling tools
return the file-not-found error reply instead of a word list. -/
theorem missing_catalog_error_reply :
    ∀ (sample : List String → Nat → List String) (fs : String → Option Catalog)
      (language difficulty_level : String) (n : Nat),
      fs (wordListPath language) = none →
      get_n_random_words sample fs language n = .error (fileNotFoundMsg language) ∧
      get_n_random_words_by_difficulty_level sample fs language difficulty_level n =
        .error (fileNotFoundMsg language) := by
  intro sample fs language dl n h
  constructor
  · simp only [get_n_random_words, h]
  · simp only [get_n_random_words_by_difficulty_level, h]

/-- Witness for C9 on an empty filesystem. -/
theorem missing_catalog_error_reply_witness :
    get_n_random_words takeSample noFs "french" 5 = .error (fileNotFoundMsg "french") ∧
    get_n_random_words_by_difficulty_level takeSample noFs "french" "beginner" 5 =
      .error (fileNotFoundMsg "french") :=
  missing_catalog_error_reply takeSample noFs "french" "beginner" 5 rfl

/-! ## Claims about the DeckBuilder -/

lemma insertLoop_reachable (store : Store) (deck : String)
    (hre : ∀ j, respOk (store j) = true) :
    ∀ (cards : List Card) (i success_count : Nat) (errors : List String),
      insertLoop store deck cards i success_count errors =
        (.ok (successMsg deck (success_count + countOk store i cards)
              (errors.length + (collectErrs store i cards).length)),
         cards.map (fun c => AnkiReq.addNote (mkNote deck c))) := by
  intro cards
  induction cards with
  | nil => intro i sc errs; simp [insertLoop, countOk, collectErrs]
  | cons c rest ih =>
    intro i sc errs
    obtain ⟨resp, hresp⟩ : ∃ resp, store i = .ok resp := by
      cases hs : store i with
      | ok r => exact ⟨r, rfl⟩
      | error e => have h2 := hre i; rw [hs] at h2; exact absurd h2 (by simp [respOk])
    cases herr : resp.error with
    | some m =>
      simp only [insertLoop, hresp, herr, ih (i + 1) sc (errs ++ [m])]
      simp [countOk, collectErrs, hresp, herr, List.length_append, Nat.add_assoc]
      congr 1
      omega
    | none =>
      simp only [insertLoop, hresp, herr, ih (i + 1) (sc + 1) errs]
      simp [countOk, collectErrs, hresp, herr, Nat.add_assoc]

lemma countOk_add_collectErrs (store : Store) (hre : ∀ j, respOk (store j) = true) :
    ∀ (cards : List Card) (i : Nat),
      countOk store i cards + (collectErrs store i cards).length = cards.length := by
  intro cards
  induction cards with
  | nil => intro i; simp [countOk, collectErrs]
  | cons c rest ih =>
    intro i
    obtain ⟨resp, hresp⟩ : ∃ resp, store i = .ok resp := by
      cases hs : store i with
      | ok r => exact ⟨r, rfl⟩
      | error e => have h2 := hre i; rw [hs] at h2; exact absurd h2 (by simp [respOk])
    cases herr : resp.error with
    | some m =>
      simp [countOk, collectErrs, hresp, herr]
      have h3 := ih (i + 1)
      omega
    | none =>
      simp [countOk, collectErrs, hresp, herr]
      have h3 := ih (i + 1)
      omega

/-- C3.  With a reachable store, `create_anki_stack` attempts every card
(the trace posts the create-deck request and then one note per card, in
order), never aborts on a per-card error, and the returned summary reports
the number of cards inserted without error and one error entry per failing
card; the success count and the error count always partition the requested
count. -/
theorem create_anki_stack_partial_failure :
    ∀ (store : Store) (deck_name : String) (cards : List Card),
      (∀ j, respOk (store j) = true) →
      create_anki_stack store deck_name cards =
        (.ok (successMsg deck_name (countOk store 1 cards) ((collectErrs store 1 cards).length)),
         AnkiReq.createDeck deck_name :: cards.map (fun c => AnkiReq.addNote (mkNote deck_name c))) ∧
      countOk store 1 cards + (collectErrs store 1 cards).length = cards.length := by
  intro store deck cards hre
  obtain ⟨resp0, h0⟩ : ∃ r, store 0 = .ok r := by
    cases hs : store 0 with
    | ok r => exact ⟨r, rfl⟩
    | error e => have h2 := hre 0; rw [hs] at h2; exact absurd h2 (by simp [respOk])
  constructor
  · simp only [create_anki_stack, h0, insertLoop_reachable store deck hre cards 1 0 []]
    simp
  · exact countOk_add_collectErrs store hre cards 1

/-- Witness for C3: three cards, one failing insertion, yields requested 3,
succeeded 2, one error, deck creation still reported successful. -/
theorem create_anki_stack_partial_failure_witness :
    create_anki_stack exStore "Spanish::Easy" exCards =
      (.ok (successMsg "Spanish::Easy" 2 1),
       [AnkiReq.createDeck "Spanish::Easy",
        AnkiReq.addNote ⟨"Spanish::Easy", "Basic", "hola", "hello"⟩,
        AnkiReq.addNote ⟨"Spanish::Easy", "Basic", "adios", "goodbye"⟩,
        AnkiReq.addNote ⟨"Spanish::Easy", "Basic", "gato", "cat"⟩]) ∧
    exCards.length = 3 ∧ (2 : Nat) + 1 = exCards.length := by
  have hre : ∀ j, respOk (exStore j) = true := by
    intro j
    by_cases h : j = 2 <;> simp [exStore, h, respOk]
  have h := create_anki_stack_partial_failure exStore "Spanish::Easy" exCards hre
  refine ⟨h.1.trans (by rfl), by rfl, ?_⟩
  have h2 := h.2
  rw [show countOk exStore 1 exCards = 2 from rfl,
      show (collectErrs exStore 1 exCards).length = 1 from rfl] at h2
  exact h2

/-- C6.  When the create-deck post raises a transport exception,
`create_anki_stack` returns the connection-error reply at once: the only post
in the trace is the create-deck request — zero card insertions are
attempted. -/
theorem create_anki_stack_fail_fast_no_inserts :
    ∀ (store : Store) (deck_name : String) (cards : List Card) (e : String),
      store 0 = .error e →
      create_anki_stack store deck_name cards =
        (.ok (connectErrMsg e), [AnkiReq.createDeck deck_name]) := by
  intro store deck cards e h
  simp only [create_anki_stack, h]

/-- Witness for C6 on an unreachable store with three pending cards. -/
theorem create_anki_stack_fail_fast_no_inserts_witness :
    create_anki_stack downStore "German::Words" exCards =
      (.ok (connectErrMsg "connection refused"), [AnkiReq.createDeck "German::Words"]) :=
  create_anki_stack_fail_fast_no_inserts downStore "German::Words" exCards "connection refused" rfl

/-! ## Claims about the Orchestrator -/

lemma runTurn_cycles_le :
    ∀ (model : List ChatMsg → ChatMsg) (execTools : ChatMsg → List ChatMsg)
      (budget : Nat) (msgs : List ChatMsg),
      (runTurn model execTools budget msgs).2 ≤ budget := by
  intro model execTools budget
  induction budget with
  | zero => intro msgs; simp [runTurn]
  | succ b ih =>
    intro msgs
    simp only [runTurn]
    split
    · simpa using Nat.succ_le_succ (ih _)
    · simp

/-- C5.  The orchestrator loop bounds the assistant-tools cycles of a turn by
the configured ceiling and fails with the turn-budget error when a model
emits tool calls on every response; no model whatsoever can drive the loop
past the ceiling. -/
theorem orchestrator_turn_budget_ceiling :
    ∀ (model : List ChatMsg → ChatMsg) (execTools : ChatMsg → List ChatMsg)
      (budget : Nat) (msgs : List ChatMsg),
      (∀ ms, hasToolCalls (model ms) = true) →
      (runTurn model execTools budget msgs).1 = .error OrchErr.turnBudgetExceeded ∧
      (runTurn model execTools budget msgs).2 = budget ∧
      (∀ (model2 : List ChatMsg → ChatMsg) (execTools2 : ChatMsg → List ChatMsg)
        (msgs2 : List ChatMsg), (runTurn model2 execTools2 budget msgs2).2 ≤ budget) := by
  intro model execTools budget msgs h
  have key : ∀ (b : Nat) (ms : List ChatMsg),
      (runTurn model execTools b ms).1 = .error OrchErr.turnBudgetExceeded ∧
      (runTurn model execTools b ms).2 = b := by
    intro b
    induction b with
    | zero => intro ms; exact ⟨rfl, rfl⟩
    | succ b ih =>
      intro ms
      simp only [runTurn, h ms, if_true]
      exact ⟨(ih _).1, by rw [(ih _).2]⟩
  exact ⟨(key budget msgs).1, (key budget msgs).2,
    fun m2 e2 ms2 => runTurn_cycles_le m2 e2 budget ms2⟩

/-- Witness for C5 at ceilings 3 and 25 with an always-calling model. -/
theorem orchestrator_turn_budget_ceiling_witness :
    (runTurn loopModel loopTools 3 initMsgs).1 = .error OrchErr.turnBudgetExceeded ∧
    (runTurn loopModel loopTools 3 initMsgs).2 = 3 ∧
    (runTurn loopModel loopTools 25 initMsgs).2 ≤ 25 :=
  ⟨(orchestrator_turn_budget_ceiling loopModel loopTools 3 initMsgs (fun _ => rfl)).1,
   (orchestrator_turn_budget_ceiling loopModel loopTools 3 initMsgs (fun _ => rfl)).2.1,
   (orchestrator_turn_budget_ceiling loopModel loopTools 25 initMsgs (fun _ => rfl)).2.2
     loopModel loopTools initMsgs⟩

end LangLearn
